import Mathlib

/-!
# Verification of the collaborative pixel-canvas subsystem (`cogs/pixel_war`)

Shallow embedding of the `PixelWar` cog: the canvas cache (a numpy array of
shape `[max_x, max_y, 3]` filled with 255), the pixel ledger (`pixel_data`, a
nested `defaultdict`), the pending-write queue (`_batch_changes`), the flush
routine (`bulk_insert`), hydration (`fill_in_pixels`), the draw command
(`draw_canvas`), the inspect command (`check_pixel`) and the window renderer's
geometry (`view_canvas`).

Machine integers in the source are Python `int`s (unbounded), so coordinates
and color codes are modelled as `Int`; timestamps are abstracted to `Nat`
ticks. numpy integer indexing (negative wrap-around, `IndexError` outside
`[-L, L)`) is modelled explicitly by `npIndex`.
-/

/-- An RGB triple as stored in one cell of the numpy canvas array. -/
abbrev RGB := Nat × Nat × Nat

/-- Modelled from the spec: the palette source file `cogs/pixel_war/enum.py`
(the `Colors` table) is not under `src/`. The spec fixes only that the palette
is a closed enumerated set of 32 colors with contiguous indices from 0, that
index 31 is pure white (the blank cell value, matching the cache default fill
of 255), and that lookup is index-based. The individual RGB values of the
other 31 entries are not specified; the values chosen here are arbitrary and
no theorem depends on them. -/
def paletteRGB (n : Nat) : RGB :=
  if n = 31 then (255, 255, 255) else (n, n, 0)

/-- The palette size: 32 colors, indexed `0..31` (per the help text of the
cog: 32 colors, numbering from 0, pure white is 31). -/
def paletteSize : Nat := 32

/-- Modelled from the spec: lookup of `Colors[color]`. The container type of
`Colors` lives in the missing `enum.py`; per the spec, "indices are
contiguous from 0; a write referencing an index outside this range is
rejected", so lookup succeeds exactly on `[0, paletteSize)` and the rejection
surfaces as the `IndexError` caught by `draw_canvas`. -/
def colorsLookup (c : Int) : Option RGB :=
  if 0 ≤ c ∧ c < (paletteSize : Int) then some (paletteRGB c.toNat) else none

/-- numpy integer index wrap-around: a negative index `i` into an axis of
length `L` counts from the end, i.e. denotes `i + L`. -/
def npWrap (L : Nat) (i : Int) : Int :=
  if i < 0 then i + (L : Int) else i

/-- numpy integer indexing into an axis of length `L`: the wrapped index must
lie in `[0, L)`, otherwise the access raises `IndexError` (here: `none`). -/
def npIndex (L : Nat) (i : Int) : Option Nat :=
  if 0 ≤ npWrap L i ∧ npWrap L i < (L : Int) then some (npWrap L i).toNat
  else none

/-- Canvas configuration: `max_x`, `max_y` come from `bot.pixel` at
construction and are immutable thereafter. -/
structure Config where
  max_x : Nat
  max_y : Nat
deriving DecidableEq, Repr

/-- One ledger entry of `pixel_data[x][y]`: color code, painter display name,
origin guild name and draw timestamp. -/
structure LedgerEntry where
  color : Int
  painter : String
  painter_guild : String
  time : Nat
deriving DecidableEq, Repr

/-- One element of the `_batch_changes` pending-write queue: the dict
appended by `draw_canvas`, capturing coordinates, color, painter, guild and
timestamp by value at write time. -/
structure PendingEntry where
  x : Int
  y : Int
  color : Int
  painter : String
  painter_guild : String
  time : Nat
deriving DecidableEq, Repr

/-- The mutable state of the `PixelWar` cog.

* `pixels` is the numpy array `numpy.zeros([max_x, max_y, 3])` after
  `fill(255)`: a function from (row, column) to RGB; every access in the
  source indexes it as `pixels[y, x]`.
* `pixel_data` is the nested `defaultdict` ledger, keyed `pixel_data[x][y]`.
* `batch_changes` is the `_batch_changes` pending-write queue, in append
  order.
* `cooldown` is the per-actor timestamp of the last gate-passing draw.
  Modelled from the spec: the cooldown bucket lives in the framework
  decorator `commands.cooldown(rate=1, per=300, type=BucketType.user)`, whose
  implementation is not under `src/`; per the spec the gate "returns false if
  `now - lastDraw[actorId] < interval` (300 time units for drawing)" and on
  success records `now`. -/
structure PWState where
  pixels : Nat → Nat → RGB
  pixel_data : Int → Int → Option LedgerEntry
  batch_changes : List PendingEntry
  cooldown : String → Option Nat

/-- The freshly constructed state of `PixelWar.__init__`: a dense all-white
canvas, an empty ledger, an empty pending-write queue and no cooldown
records. -/
def initState : PWState :=
  { pixels := fun _ _ => (255, 255, 255)
    pixel_data := fun _ _ => none
    batch_changes := []
    cooldown := fun _ => none }

/-- Outcome of the draw command, one constructor per distinct reply path of
`draw_canvas` (plus the cooldown rejection of the surrounding gate). -/
inductive DrawResult where
  /-- The success reply. -/
  | ok : DrawResult
  /-- The reply of the coordinate bounds check. -/
  | outOfBounds : DrawResult
  /-- The reply of the `except IndexError` handler. -/
  | invalidColor : DrawResult
  /-- The cooldown rejection, carrying the remaining wait reported by
  `cog_command_error` from `error.retry_after`. -/
  | cooldownActive (remaining : Nat) : DrawResult
deriving DecidableEq, Repr

/-- The body of the `画图` command (`PixelWar.draw_canvas`), after the
cooldown gate: checks `0 >= x >= max_x or 0 >= y >= max_y` (a Python chained
comparison, kept exactly as written), then executes
`self.pixels[y, x] = Colors[color]` — the palette lookup and both numpy
indices must succeed, else the statement raises `IndexError` and the command
replies with the invalid-color message without mutating anything. On success
it appends the snapshot dict to `_batch_changes` and overwrites
`pixel_data[x][y]`. -/
def draw_canvas (cfg : Config) (author guild : String) (now : Nat)
    (s : PWState) (x y color : Int) : DrawResult × PWState :=
  if (0 ≥ x ∧ x ≥ (cfg.max_x : Int)) ∨ (0 ≥ y ∧ y ≥ (cfg.max_y : Int)) then
    (.outOfBounds, s)
  else
    match colorsLookup color, npIndex cfg.max_x y, npIndex cfg.max_y x with
    | some rgb, some row, some col =>
        (.ok,
          { s with
            pixels := fun r c => if r = row ∧ c = col then rgb else s.pixels r c
            batch_changes := s.batch_changes ++
              [{ x := x, y := y, color := color, painter := author,
                 painter_guild := guild, time := now }]
            pixel_data := fun a b =>
              if a = x ∧ b = y then
                some { color := color, painter := author,
                       painter_guild := guild, time := now }
              else s.pixel_data a b })
    | _, _, _ => (.invalidColor, s)

/-- The draw command as dispatched, with the per-user cooldown gate in front
of the body. Modelled from the spec: the gate itself is the framework
decorator `commands.cooldown(rate=1, per=300)`, not code under `src/`; the
spec's contract is `tryAcquire` returning false when
`now - lastDraw[actor] < 300` (the remaining wait is surfaced by
`cog_command_error` as `retry_after`), and recording `now` on success. -/
def draw_command (cfg : Config) (author guild : String) (now : Nat)
    (s : PWState) (x y color : Int) : DrawResult × PWState :=
  match s.cooldown author with
  | some t =>
      if now - t < 300 then (.cooldownActive (300 - (now - t)), s)
      else
        draw_canvas cfg author guild now
          { s with cooldown := fun a => if a = author then some now else s.cooldown a }
          x y color
  | none =>
      draw_canvas cfg author guild now
        { s with cooldown := fun a => if a = author then some now else s.cooldown a }
        x y color

/-- Outcome of the `查像素` inspect command. `outOfBounds` stands for a typed
bounds failure as the other commands produce; `check_pixel` has no bounds
check and the theorems show it never produces this constructor. -/
inductive InspectResult where
  /-- A typed bounds rejection (never produced by `check_pixel`). -/
  | outOfBounds : InspectResult
  /-- The "nobody painted here yet" reply. -/
  | neverPainted : InspectResult
  /-- The provenance reply: guild, painter, time and color of the entry. -/
  | found (e : LedgerEntry) : InspectResult
deriving DecidableEq, Repr

/-- The `查像素` command (`PixelWar.check_pixel`): `if y not in
self.pixel_data[x]` replies that the cell was never painted (the outer
`defaultdict` access cannot raise, for any integers `x`, `y`); otherwise it
reports the stored entry. -/
def check_pixel (s : PWState) (x y : Int) : InspectResult :=
  match s.pixel_data x y with
  | none => .neverPainted
  | some e => .found e

/-- A draw request: the actor identity, the invocation time and the three
command arguments. -/
structure DrawReq where
  author : String
  guild : String
  now : Nat
  x : Int
  y : Int
  color : Int
deriving DecidableEq, Repr

/-- The pending-write snapshot a successful draw of request `r` appends. -/
def DrawReq.entry (r : DrawReq) : PendingEntry :=
  { x := r.x, y := r.y, color := r.color, painter := r.author,
    painter_guild := r.guild, time := r.now }

/-- A sequence of draw-command bodies executed back to back (no intervening
flush): returns the final state and the list of per-draw outcomes in
order. -/
def draw_all (cfg : Config) (s : PWState) : List DrawReq → PWState × List DrawResult
  | [] => (s, [])
  | r :: rest =>
      let step := draw_canvas cfg r.author r.guild r.now s r.x r.y r.color
      let next := draw_all cfg step.2 rest
      (next.1, step.1 :: next.2)

/-- One tick of the flush routine `PixelWar.bulk_insert`, abstracting the
durable-storage round-trip to its outcome `execOk`. If the queue is empty
nothing happens. Otherwise the whole queue is handed to a single batch
upsert; on success the queue is cleared afterwards (`_batch_changes.clear()`)
and the sent rows are returned, on failure the `execute` call raises before
`clear()` is reached, so the queue is left intact and nothing was persisted. -/
def bulk_insert (s : PWState) (execOk : Bool) : PWState × List PendingEntry :=
  if s.batch_changes.isEmpty then (s, [])
  else if execOk then ({ s with batch_changes := [] }, s.batch_changes)
  else (s, [])

/-- One row of the durable `pixels` table, as returned by the hydration full
scan `SELECT * FROM pixels`. The table is keyed by `(x, y)`. -/
structure DBRow where
  x : Int
  y : Int
  color : Int
  painter : String
  painter_guild : String
  time : Nat
deriving DecidableEq, Repr

/-- The ledger entry hydration stores for a row. -/
def DBRow.entry (r : DBRow) : LedgerEntry :=
  { color := r.color, painter := r.painter, painter_guild := r.painter_guild,
    time := r.time }

/-- Hydration of one scanned row (one iteration of the loop in
`PixelWar.fill_in_pixels`): the ledger entry `pixel_data[x][y]` is stored
unconditionally; a stored color equal to 31 is then skipped (`continue`)
without painting; any other color is painted into the cache by
`self.pixels[row.y, row.x] = Colors[row.color]` — here there is no
`try/except`, so a failing palette lookup or numpy index aborts hydration
(`none`). -/
def applyRow (cfg : Config) (s : PWState) (r : DBRow) : Option PWState :=
  let s1 : PWState :=
    { s with pixel_data := fun a b =>
        if a = r.x ∧ b = r.y then some r.entry else s.pixel_data a b }
  if r.color = 31 then some s1
  else
    match colorsLookup r.color, npIndex cfg.max_x r.y, npIndex cfg.max_y r.x with
    | some rgb, some row, some col =>
        some { s1 with
               pixels := fun i j => if i = row ∧ j = col then rgb else s1.pixels i j }
    | _, _, _ => none

/-- `PixelWar.fill_in_pixels`: hydrate the cache and ledger from all rows of
the full scan, in scan order. -/
def fill_in_pixels (cfg : Config) (s : PWState) : List DBRow → Option PWState
  | [] => some s
  | r :: rest =>
      match applyRow cfg s r with
      | none => none
      | some s1 => fill_in_pixels cfg s1 rest

/-- A row satisfying the storable invariants: its cell lies on the canvas
(`0 ≤ x < max_x`, `0 ≤ y < max_y`), its indices are valid for the cache
allocation `numpy.zeros([max_x, max_y, 3])` under the source's uniform
`pixels[y, x]` access convention (`y < max_x`, `x < max_y`; the two
conditions coincide on the square deployed canvas), and its color is a
palette index. -/
def validRow (cfg : Config) (r : DBRow) : Prop :=
  0 ≤ r.x ∧ r.x < (cfg.max_x : Int) ∧ 0 ≤ r.y ∧ r.y < (cfg.max_y : Int) ∧
    r.x < (cfg.max_y : Int) ∧ r.y < (cfg.max_x : Int) ∧
    0 ≤ r.color ∧ r.color < (paletteSize : Int)

instance (cfg : Config) (r : DBRow) : Decidable (validRow cfg r) := by
  unfold validRow; infer_instance

/-- The length of the numpy basic slice `a[lo:hi]` along an axis of length
`L`, for the non-negative bounds arising in `view_canvas` (`lo = max 0 _`,
`hi = min _ _ ≥ 0`): both bounds are clamped to `L` and an empty range yields
length 0. -/
def sliceLen (L : Nat) (lo hi : Int) : Nat :=
  min hi.toNat L - min lo.toNat L

/-- The geometry of the padded window grid built by `view_canvas` before
upscaling: the shape of the clipped sub-grid slice and the four
`numpy.pad` widths. -/
structure ViewGrid where
  rows : Nat
  cols : Nat
  padTop : Nat
  padBottom : Nat
  padLeft : Nat
  padRight : Nat
deriving DecidableEq, Repr

/-- Height of the padded grid. -/
def ViewGrid.height (g : ViewGrid) : Nat := g.padTop + g.rows + g.padBottom

/-- Width of the padded grid. -/
def ViewGrid.width (g : ViewGrid) : Nat := g.padLeft + g.cols + g.padRight

/-- Outcome of the `看图` window renderer. -/
inductive ViewResult where
  /-- The center-outside-the-canvas reply. -/
  | outOfBounds : ViewResult
  /-- The radius-too-large reply. -/
  | radiusTooLarge : ViewResult
  /-- Rendering proceeds; the payload records the padded-grid geometry that
  is subsequently resized to `(2*radius+1)*20` square and JPEG-encoded. -/
  | image (g : ViewGrid) : ViewResult
deriving DecidableEq, Repr

/-- The geometry of `PixelWar.view_canvas`: the center check
`0 <= x <= max_x and 0 <= y <= max_y`, the radius check `radius > 100`, the
clipped slice `pixels[y_min:y_max, x_min:x_max]` (axis 0 of the allocation
has length `max_x`, axis 1 length `max_y`) and the `numpy.pad` widths
`[(max(0, radius - y), max(0, y + radius - max_y - 1)), (max(0, radius - x),
max(0, x + radius - max_x - 1))]`, exactly as written in the source. -/
def view_canvas (cfg : Config) (x y radius : Int) : ViewResult :=
  if ¬ (0 ≤ x ∧ x ≤ (cfg.max_x : Int) ∧ 0 ≤ y ∧ y ≤ (cfg.max_y : Int)) then
    .outOfBounds
  else if radius > 100 then .radiusTooLarge
  else
    let x_max : Int := min (cfg.max_x : Int) (x + radius + 1)
    let x_min : Int := max 0 (x - radius)
    let y_max : Int := min (cfg.max_y : Int) (y + radius + 1)
    let y_min : Int := max 0 (y - radius)
    .image
      { rows := sliceLen cfg.max_x y_min y_max
        cols := sliceLen cfg.max_y x_min x_max
        padTop := (max 0 (radius - y)).toNat
        padBottom := (max 0 (y + radius - (cfg.max_y : Int) - 1)).toNat
        padLeft := (max 0 (radius - x)).toNat
        padRight := (max 0 (x + radius - (cfg.max_x : Int) - 1)).toNat }

/-! ## Helper lemmas -/

instance (cfg : Config) (r : DBRow) : Decidable (validRow cfg r) :=
  inferInstanceAs (Decidable (0 ≤ r.x ∧ r.x < (cfg.max_x : Int) ∧ 0 ≤ r.y ∧
    r.y < (cfg.max_y : Int) ∧ r.x < (cfg.max_y : Int) ∧ r.y < (cfg.max_x : Int) ∧
    0 ≤ r.color ∧ r.color < (paletteSize : Int)))

/-- A non-negative in-range index is left unchanged by numpy indexing. -/
theorem npIndex_of_nonneg (L : Nat) (i : Int) (h0 : 0 ≤ i) (hL : i < (L : Int)) :
    npIndex L i = some i.toNat := by
  have hw : npWrap L i = i := by
    unfold npWrap
    rw [if_neg (by omega)]
  unfold npIndex
  rw [hw, if_pos ⟨h0, hL⟩]

/-- Palette lookup succeeds exactly on the contiguous index range. -/
theorem colorsLookup_of_valid (c : Int) (h0 : 0 ≤ c) (h : c < (paletteSize : Int)) :
    colorsLookup c = some (paletteRGB c.toNat) := by
  unfold colorsLookup
  rw [if_pos ⟨h0, h⟩]

/-- Palette lookup rejects every index outside the contiguous range. -/
theorem colorsLookup_of_invalid (c : Int) (h : c < 0 ∨ (paletteSize : Int) ≤ c) :
    colorsLookup c = none := by
  unfold colorsLookup
  rw [if_neg (by omega)]

/-- What a successful run of the draw body did to the state: it appended
exactly one snapshot to the pending-write queue and overwrote the ledger
entry of the drawn cell, leaving every other ledger cell alone. -/
theorem draw_canvas_ok_state (cfg : Config) (author guild : String) (now : Nat)
    (s : PWState) (x y color : Int) (s' : PWState)
    (h : draw_canvas cfg author guild now s x y color = (.ok, s')) :
    s'.batch_changes = s.batch_changes ++
      [{ x := x, y := y, color := color, painter := author,
         painter_guild := guild, time := now }] ∧
    s'.pixel_data x y =
      some { color := color, painter := author, painter_guild := guild,
             time := now } ∧
    ∀ a b : Int, ¬ (a = x ∧ b = y) → s'.pixel_data a b = s.pixel_data a b := by
  unfold draw_canvas at h
  split at h
  · simp at h
  · split at h
    · injection h with h1 h2
      subst h2
      refine ⟨rfl, by simp, ?_⟩
      intro a b hab
      exact if_neg hab
    · simp at h

/-- The draw body never produces a cooldown rejection; that constructor
belongs to the surrounding gate alone. -/
theorem draw_canvas_ne_cooldown (cfg : Config) (author guild : String) (now : Nat)
    (s : PWState) (x y color : Int) (r : Nat) :
    (draw_canvas cfg author guild now s x y color).1 ≠ .cooldownActive r := by
  unfold draw_canvas
  split
  · simp
  · split <;> simp

/-! ## Claims -/

/-- Claim C1: for every coordinate pair and palette index, a successful
`draw(actor, x, y, color)` followed immediately by `inspect(x, y)` returns
exactly that color and the drawing actor's display name (together with the
guild and timestamp captured at draw time). -/
theorem C1_draw_then_inspect (cfg : Config) (author guild : String) (now : Nat)
    (s : PWState) (x y color : Int) (s' : PWState)
    (h : draw_canvas cfg author guild now s x y color = (.ok, s')) :
    check_pixel s' x y =
      .found { color := color, painter := author, painter_guild := guild,
               time := now } := by
  unfold check_pixel
  rw [(draw_canvas_ok_state cfg author guild now s x y color s' h).2.1]

/-- Witness for C1: on a 10×10 canvas, actor `A` draws color 6 at `(5,5)`
and inspecting `(5,5)` reports color 6 painted by `A`. -/
theorem C1_witness :
    check_pixel (draw_canvas ⟨10, 10⟩ "A" "G" 7 initState 5 5 6).2 5 5 =
      .found { color := 6, painter := "A", painter_guild := "G", time := 7 } :=
  C1_draw_then_inspect ⟨10, 10⟩ "A" "G" 7 initState 5 5 6
    (draw_canvas ⟨10, 10⟩ "A" "G" 7 initState 5 5 6).2 rfl

/-- Claim C2 fails on the code: the bounds check `0 >= x >= max_x or
0 >= y >= max_y` is an unsatisfiable chained comparison on any non-empty
canvas, so no out-of-bounds draw is ever rejected with the out-of-bounds
reply. On a 10×10 canvas, `draw` at `(-1, -1)` with color 0 succeeds via
numpy negative-index wrap-around: it paints cache cell row 9, column 9,
creates a ledger entry keyed `(-1, -1)` and appends one snapshot to the
pending-write queue; `draw` at `(10, 5)` is rejected, but with the
invalid-color reply (the `IndexError` handler), not the out-of-bounds one. -/
theorem C2_out_of_bounds_draw_not_rejected :
    (draw_canvas ⟨10, 10⟩ "A" "G" 7 initState (-1) (-1) 0).1 = .ok ∧
    (draw_canvas ⟨10, 10⟩ "A" "G" 7 initState (-1) (-1) 0).2.batch_changes.length
      = 1 ∧
    (draw_canvas ⟨10, 10⟩ "A" "G" 7 initState (-1) (-1) 0).2.pixel_data (-1) (-1)
      = some { color := 0, painter := "A", painter_guild := "G", time := 7 } ∧
    (draw_canvas ⟨10, 10⟩ "A" "G" 7 initState (-1) (-1) 0).2.pixels 9 9
      = (0, 0, 0) ∧
    initState.pixels 9 9 = (255, 255, 255) ∧
    (draw_canvas ⟨10, 10⟩ "A" "G" 7 initState 10 5 0).1 = .invalidColor :=
  ⟨rfl, rfl, rfl, rfl, rfl, rfl⟩

/-- Claim C3: with the spec-modelled palette (lookup rejects every index
outside `[0, paletteSize)`), a draw at any in-bounds cell with an
out-of-range color index — negative included — is rejected with the
invalid-color reply and the whole state (cache, ledger, pending-write
queue) is returned unchanged. -/
theorem C3_invalid_color_rejected (cfg : Config) (author guild : String)
    (now : Nat) (s : PWState) (x y color : Int)
    (hx0 : 0 ≤ x) (hx1 : x < (cfg.max_x : Int))
    (hy0 : 0 ≤ y) (hy1 : y < (cfg.max_y : Int))
    (hc : color < 0 ∨ (paletteSize : Int) ≤ color) :
    draw_canvas cfg author guild now s x y color = (.invalidColor, s) := by
  unfold draw_canvas
  rw [if_neg (by omega), colorsLookup_of_invalid color hc]

/-- Witness for C3: on a 10×10 canvas, drawing color `-1` at `(5, 5)` is
rejected with the invalid-color reply and the state is unchanged. -/
theorem C3_witness :
    draw_canvas ⟨10, 10⟩ "A" "G" 7 initState 5 5 (-1) =
      (.invalidColor, initState) :=
  C3_invalid_color_rejected ⟨10, 10⟩ "A" "G" 7 initState 5 5 (-1)
    (by decide) (by decide) (by decide) (by decide) (Or.inl (by decide))

/-- Claim C10 (implicit): the inspect command has no bounds check at all:
for every coordinate pair, in or out of the canvas, it never produces a
typed bounds failure — a cell with no ledger entry gets the never-painted
reply and a cell with an entry gets that entry. -/
theorem C10_inspect_never_out_of_bounds (s : PWState) (x y : Int) :
    check_pixel s x y ≠ .outOfBounds ∧
    (s.pixel_data x y = none → check_pixel s x y = .neverPainted) ∧
    ∀ e : LedgerEntry, s.pixel_data x y = some e →
      check_pixel s x y = .found e := by
  refine ⟨?_, fun h => ?_, fun e h => ?_⟩
  · unfold check_pixel
    cases s.pixel_data x y <;> simp
  · unfold check_pixel
    rw [h]
  · unfold check_pixel
    rw [h]

/-- Witness for C10: inspecting the far out-of-bounds cell `(-5, 999)` of a
fresh canvas gives the never-painted reply, not a bounds failure. -/
theorem C10_witness :
    check_pixel initState (-5) 999 ≠ .outOfBounds ∧
    (initState.pixel_data (-5) 999 = none →
      check_pixel initState (-5) 999 = .neverPainted) ∧
    ∀ e : LedgerEntry, initState.pixel_data (-5) 999 = some e →
      check_pixel initState (-5) 999 = .found e :=
  C10_inspect_never_out_of_bounds initState (-5) 999

/-- Claim C4 fails on the code: the flush clears the queue only after the
batch upsert has succeeded, so when the upsert fails the queue still
contains the failed batch and the next successful flush re-sends it
together with the newly queued entries. Concretely: with one pending entry,
a failed flush leaves that entry in the queue, and the next successful
flush (after one more entry was enqueued) sends both entries, not just the
new one. -/
theorem C4_counterexample :
    let e1 : PendingEntry :=
      { x := 1, y := 2, color := 3, painter := "A", painter_guild := "G", time := 5 }
    let e2 : PendingEntry :=
      { x := 4, y := 5, color := 6, painter := "B", painter_guild := "H", time := 9 }
    let s1 : PWState := { initState with batch_changes := [e1] }
    (bulk_insert s1 false).1.batch_changes = [e1] ∧
    (bulk_insert
      { (bulk_insert s1 false).1 with
        batch_changes := (bulk_insert s1 false).1.batch_changes ++ [e2] }
      true).2 = [e1, e2] :=
  ⟨rfl, rfl⟩

/-- Claim C4 as amended: when the batch upsert fails, nothing is persisted
and the pending-write queue is left exactly as it was — the failed batch is
retained, not dropped — and a later successful flush sends the previously
failed entries together with everything enqueued after the failure. -/
theorem C4_amended_failed_flush_retains_batch (s s2 : PWState)
    (newEntries : List PendingEntry)
    (hq : s2.batch_changes = s.batch_changes ++ newEntries) :
    (bulk_insert s false).1 = s ∧
    (bulk_insert s false).2 = [] ∧
    (s.batch_changes ≠ [] →
      (bulk_insert s2 true).2 = s.batch_changes ++ newEntries) := by
  refine ⟨?_, ?_, fun hne => ?_⟩
  · unfold bulk_insert
    split
    · rfl
    · rw [if_neg Bool.false_ne_true]
  · unfold bulk_insert
    split
    · rfl
    · rw [if_neg Bool.false_ne_true]
  · unfold bulk_insert
    rw [if_neg (by simp [hq, hne]), if_pos rfl, hq]

/-- Witness for C4's amended claim: one entry pending, the flush fails, the
queue still holds it; after a second entry arrives, a successful flush
sends both. -/
theorem C4_amended_witness :
    let e1 : PendingEntry :=
      { x := 1, y := 2, color := 3, painter := "A", painter_guild := "G", time := 5 }
    let e2 : PendingEntry :=
      { x := 4, y := 5, color := 6, painter := "B", painter_guild := "H", time := 9 }
    let s1 : PWState := { initState with batch_changes := [e1] }
    let s2 : PWState := { initState with batch_changes := [e1, e2] }
    (bulk_insert s1 false).1 = s1 ∧
    (bulk_insert s1 false).2 = [] ∧
    (s1.batch_changes ≠ [] → (bulk_insert s2 true).2 = s1.batch_changes ++ [e2]) :=
  C4_amended_failed_flush_retains_batch _ _ [_] rfl

/-- Claim C5 fails on the code: the high-edge pad widths are computed as
`max(0, y + radius - max_y - 1)` and `max(0, x + radius - max_x - 1)`
(instead of `... + 1`), so whenever the window is clipped at a high edge the
pad falls short and the padded grid is not a square of side `2*radius+1`.
At the canvas corner `(0, 0)` with radius 10 on a 10×10 canvas the padding
does land on exactly the two edges nearest the boundary (10 cells on top
and left, none on bottom or right), but the padded grid is 20×20, not the
required 21×21 — the bottom and right rows that the clipping removed
(index 10 of the range `[-10, 10]`) are not compensated. -/
theorem C5_corner_window_not_square :
    view_canvas ⟨10, 10⟩ 0 0 10 =
      .image { rows := 10, cols := 10, padTop := 10, padBottom := 0,
               padLeft := 10, padRight := 0 } ∧
    ViewGrid.height { rows := 10, cols := 10, padTop := 10, padBottom := 0,
                      padLeft := 10, padRight := 0 } = 20 ∧
    ViewGrid.width { rows := 10, cols := 10, padTop := 10, padBottom := 0,
                     padLeft := 10, padRight := 0 } = 20 ∧
    2 * 10 + 1 = 21 :=
  ⟨rfl, rfl, rfl, rfl⟩

/-- Claim C6 fails on the code as stated: the center check of the renderer
uses inclusive upper bounds (`0 <= x <= max_x and 0 <= y <= max_y`), so the
center `(10, 5)` on a 10×10 canvas — outside the half-open canvas
`[0, 10) × [0, 10)` the claim quantifies over — is not rejected; rendering
proceeds (with a clipped, right-padded window). -/
theorem C6_counterexample :
    view_canvas ⟨10, 10⟩ 10 5 5 =
      .image { rows := 10, cols := 5, padTop := 0, padBottom := 0,
               padLeft := 0, padRight := 4 } :=
  rfl

/-- Claim C6 as amended: the renderer fails with the out-of-bounds reply
exactly when the center lies outside the inclusive rectangle
`[0, max_x] × [0, max_y]`, and with the radius-too-large reply exactly when
the center lies inside that rectangle and `radius > 100`; in both cases no
rendering is attempted (no image geometry is produced). -/
theorem C6_amended_failure_conditions (cfg : Config) (x y radius : Int) :
    (view_canvas cfg x y radius = .outOfBounds ↔
      ¬ (0 ≤ x ∧ x ≤ (cfg.max_x : Int) ∧ 0 ≤ y ∧ y ≤ (cfg.max_y : Int))) ∧
    (view_canvas cfg x y radius = .radiusTooLarge ↔
      ((0 ≤ x ∧ x ≤ (cfg.max_x : Int) ∧ 0 ≤ y ∧ y ≤ (cfg.max_y : Int)) ∧
        100 < radius)) := by
  unfold view_canvas
  split
  · next h => simp [h]
  · next h =>
      rw [not_not] at h
      split
      · next hr => simp [h, hr]
      · next hr => simp [h, hr]

/-- Witness for C6's amended claim: on a 10×10 canvas, the center `(11, 5)`
with radius 200 is rejected as out of bounds (and not as radius-too-large,
the bounds check coming first). -/
theorem C6_amended_witness :
    (view_canvas ⟨10, 10⟩ 11 5 200 = ViewResult.outOfBounds ↔
      ¬ (0 ≤ (11 : Int) ∧ (11 : Int) ≤ ((10 : Nat) : Int) ∧ 0 ≤ (5 : Int) ∧
        (5 : Int) ≤ ((10 : Nat) : Int))) ∧
    (view_canvas ⟨10, 10⟩ 11 5 200 = ViewResult.radiusTooLarge ↔
      ((0 ≤ (11 : Int) ∧ (11 : Int) ≤ ((10 : Nat) : Int) ∧ 0 ≤ (5 : Int) ∧
        (5 : Int) ≤ ((10 : Nat) : Int)) ∧ 100 < (200 : Int))) :=
  C6_amended_failure_conditions ⟨10, 10⟩ 11 5 200

/-- Claim C7: with the spec-modelled cooldown gate (300 time units per
actor), a draw command issued while the actor's previous gate-passing draw
is less than 300 units old is rejected with the cooldown reply carrying the
remaining wait, and mutates nothing; once 300 units have elapsed the gate
no longer rejects the actor's next draw. -/
theorem C7_cooldown_gate (cfg : Config) (author guild : String) (t now : Nat)
    (s : PWState) (x y color : Int) (hlast : s.cooldown author = some t) :
    (now - t < 300 →
      draw_command cfg author guild now s x y color =
        (.cooldownActive (300 - (now - t)), s)) ∧
    (300 ≤ now - t →
      ∀ r : Nat,
        (draw_command cfg author guild now s x y color).1 ≠ .cooldownActive r) := by
  constructor
  · intro h
    simp only [draw_command, hlast, if_pos h]
  · intro h r
    simp only [draw_command, hlast,
      if_neg (show ¬ now - t < 300 by omega)]
    exact draw_canvas_ne_cooldown cfg author guild now _ x y color r

/-- Witness for C7: actor `A` last passed the gate at time 100. At time 200
the draw is rejected with 200 units of wait remaining and the state is
untouched; at time 400 the gate no longer rejects. -/
theorem C7_witness :
    let s : PWState :=
      { initState with cooldown := fun a => if a = "A" then some 100 else none }
    (draw_command ⟨10, 10⟩ "A" "G" 200 s 5 5 6 = (.cooldownActive 200, s)) ∧
    (draw_command ⟨10, 10⟩ "A" "G" 400 s 5 5 6).1 ≠ .cooldownActive 0 := by
  intro s
  exact ⟨(C7_cooldown_gate ⟨10, 10⟩ "A" "G" 100 200 s 5 5 6 rfl).1 (by decide),
         (C7_cooldown_gate ⟨10, 10⟩ "A" "G" 100 400 s 5 5 6 rfl).2 (by decide) 0⟩

/-- Claim C9: a run of successful draw commands with no intervening flush
appends exactly one pending-write snapshot per draw, in draw order, each
capturing the request's coordinates, color, painter, guild and timestamp at
write time — every intermediate write to a cell is kept, unaffected by later
overwrites of the same cell, since each snapshot is a function of its own
request alone. -/
theorem C9_queue_one_entry_per_draw (cfg : Config) (s : PWState)
    (reqs : List DrawReq)
    (hok : ∀ res ∈ (draw_all cfg s reqs).2, res = DrawResult.ok) :
    (draw_all cfg s reqs).1.batch_changes =
      s.batch_changes ++ reqs.map DrawReq.entry := by
  induction reqs generalizing s with
  | nil => simp [draw_all]
  | cons r rest ih =>
      simp only [draw_all] at hok ⊢
      have hres : (draw_canvas cfg r.author r.guild r.now s r.x r.y r.color).1
          = DrawResult.ok :=
        hok _ (List.mem_cons_self _ _)
      have hd : draw_canvas cfg r.author r.guild r.now s r.x r.y r.color =
          (DrawResult.ok,
           (draw_canvas cfg r.author r.guild r.now s r.x r.y r.color).2) := by
        rw [← hres]
      have hstep := (draw_canvas_ok_state cfg r.author r.guild r.now s
        r.x r.y r.color _ hd).1
      have htail : ∀ res ∈ (draw_all cfg
          (draw_canvas cfg r.author r.guild r.now s r.x r.y r.color).2 rest).2,
          res = DrawResult.ok :=
        fun res hres2 => hok res (List.mem_cons_of_mem _ hres2)
      rw [ih _ htail, hstep, List.map_cons, List.append_assoc,
        List.singleton_append]
      rfl

/-- Witness for C9: two successful draws on the same cell `(5,5)` — color 6
by `A`, then color 3 by `B` — leave two snapshots in the queue, in order,
the first one unaffected by the second overwrite. -/
theorem C9_witness :
    let reqs : List DrawReq :=
      [{ author := "A", guild := "G", now := 0, x := 5, y := 5, color := 6 },
       { author := "B", guild := "H", now := 1, x := 5, y := 5, color := 3 }]
    (draw_all ⟨10, 10⟩ initState reqs).1.batch_changes =
      initState.batch_changes ++ reqs.map DrawReq.entry :=
  C9_queue_one_entry_per_draw ⟨10, 10⟩ initState _ (by decide)

/-- Rows with distinct `(x, y)` keys and canvas-valid coordinates occupy
distinct cache cells (non-negative coordinates make `Int.toNat`
injective). -/
theorem distinct_key_distinct_cell {cfg : Config} {a b : DBRow}
    (ha : validRow cfg a) (hb : validRow cfg b)
    (hk : a.x ≠ b.x ∨ a.y ≠ b.y) :
    ¬ (a.y.toNat = b.y.toNat ∧ a.x.toNat = b.x.toNat) := by
  obtain ⟨hax, -, hay, -, -, -, -, -⟩ := ha
  obtain ⟨hbx, -, hby, -, -, -, -, -⟩ := hb
  rintro ⟨h1, h2⟩
  rcases hk with h | h
  · exact h (by omega)
  · exact h (by omega)

/-- Hydrating one valid, non-sentinel row: the ledger entry is stored and
the row's cell is painted with the palette color; nothing else changes. -/
theorem applyRow_of_paint (cfg : Config) (s : PWState) (r : DBRow)
    (hr : validRow cfg r) (h31 : r.color ≠ 31) :
    applyRow cfg s r = some
      { pixels := fun i j =>
          if i = r.y.toNat ∧ j = r.x.toNat then paletteRGB r.color.toNat
          else s.pixels i j
        pixel_data := fun a b =>
          if a = r.x ∧ b = r.y then some r.entry else s.pixel_data a b
        batch_changes := s.batch_changes
        cooldown := s.cooldown } := by
  obtain ⟨hx0, hx1, hy0, hy1, hxc, hyc, hc0, hc1⟩ := hr
  unfold applyRow
  rw [if_neg h31, colorsLookup_of_valid r.color hc0 hc1,
      npIndex_of_nonneg cfg.max_x r.y hy0 hyc,
      npIndex_of_nonneg cfg.max_y r.x hx0 hxc]

/-- Hydrating one sentinel (color 31) row: the ledger entry is stored but
the cache is not touched. -/
theorem applyRow_of_sentinel (cfg : Config) (s : PWState) (r : DBRow)
    (h31 : r.color = 31) :
    applyRow cfg s r = some
      { s with pixel_data := fun a b =>
          if a = r.x ∧ b = r.y then some r.entry else s.pixel_data a b } := by
  unfold applyRow
  rw [if_pos h31]

/-- Frame property of hydration: cells and ledger keys touched by none of
the (valid) scanned rows keep their pre-hydration values. -/
theorem fill_in_pixels_frame (cfg : Config) (rows : List DBRow) :
    ∀ s s' : PWState, (∀ r ∈ rows, validRow cfg r) →
      fill_in_pixels cfg s rows = some s' →
      (∀ a b : Int, (∀ r ∈ rows, ¬ (a = r.x ∧ b = r.y)) →
        s'.pixel_data a b = s.pixel_data a b) ∧
      (∀ i j : Nat, (∀ r ∈ rows, ¬ (i = r.y.toNat ∧ j = r.x.toNat)) →
        s'.pixels i j = s.pixels i j) := by
  induction rows with
  | nil =>
      intro s s' _ h
      injection h with h
      subst h
      exact ⟨fun a b _ => rfl, fun i j _ => rfl⟩
  | cons r rest ih =>
      intro s s' hv hfill
      have hvr : validRow cfg r := hv r (List.mem_cons_self _ _)
      have hvrest : ∀ q ∈ rest, validRow cfg q :=
        fun q hq => hv q (List.mem_cons_of_mem _ hq)
      by_cases h31 : r.color = 31
      · simp only [fill_in_pixels, applyRow_of_sentinel cfg s r h31] at hfill
        obtain ⟨hled, hpix⟩ := ih _ s' hvrest hfill
        refine ⟨fun a b hab => ?_, fun i j hij => ?_⟩
        · rw [hled a b (fun q hq => hab q (List.mem_cons_of_mem _ hq))]
          exact if_neg (hab r (List.mem_cons_self _ _))
        · exact hpix i j (fun q hq => hij q (List.mem_cons_of_mem _ hq))
      · simp only [fill_in_pixels, applyRow_of_paint cfg s r hvr h31] at hfill
        obtain ⟨hled, hpix⟩ := ih _ s' hvrest hfill
        refine ⟨fun a b hab => ?_, fun i j hij => ?_⟩
        · rw [hled a b (fun q hq => hab q (List.mem_cons_of_mem _ hq))]
          exact if_neg (hab r (List.mem_cons_self _ _))
        · rw [hpix i j (fun q hq => hij q (List.mem_cons_of_mem _ hq))]
          exact if_neg (hij r (List.mem_cons_self _ _))

/-- Hydration from any starting state, on valid rows with pairwise distinct
`(x, y)` keys: it completes, stores every row's ledger entry, paints every
non-sentinel row's cell through the palette and leaves every sentinel row's
cell at its pre-hydration value. -/
theorem fill_in_pixels_spec (cfg : Config) (rows : List DBRow) :
    ∀ s : PWState, (∀ r ∈ rows, validRow cfg r) →
      rows.Pairwise (fun a b => a.x ≠ b.x ∨ a.y ≠ b.y) →
      ∃ s', fill_in_pixels cfg s rows = some s' ∧
        ∀ r ∈ rows,
          s'.pixel_data r.x r.y = some r.entry ∧
          (r.color ≠ 31 →
            s'.pixels r.y.toNat r.x.toNat = paletteRGB r.color.toNat) ∧
          (r.color = 31 →
            s'.pixels r.y.toNat r.x.toNat = s.pixels r.y.toNat r.x.toNat) := by
  induction rows with
  | nil =>
      intro s _ _
      exact ⟨s, rfl, by simp⟩
  | cons r rest ih =>
      intro s hv hp
      have hvr : validRow cfg r := hv r (List.mem_cons_self _ _)
      have hvrest : ∀ q ∈ rest, validRow cfg q :=
        fun q hq => hv q (List.mem_cons_of_mem _ hq)
      have hkey : ∀ q ∈ rest, r.x ≠ q.x ∨ r.y ≠ q.y :=
        (List.pairwise_cons.mp hp).1
      have hprest : rest.Pairwise (fun a b => a.x ≠ b.x ∨ a.y ≠ b.y) :=
        (List.pairwise_cons.mp hp).2
      by_cases h31 : r.color = 31
      · obtain ⟨s', hfill, hrest⟩ :=
          ih { s with pixel_data := fun a b =>
                if a = r.x ∧ b = r.y then some r.entry else s.pixel_data a b }
            hvrest hprest
        refine ⟨s', ?_, ?_⟩
        · simp only [fill_in_pixels, applyRow_of_sentinel cfg s r h31]
          exact hfill
        · intro q hq
          rcases List.mem_cons.mp hq with hq | hq
          · subst hq
            obtain ⟨hled, hpix⟩ := fill_in_pixels_frame cfg rest _ s' hvrest hfill
            refine ⟨?_, fun hne => absurd h31 hne, fun _ => ?_⟩
            · rw [hled q.x q.y ?_]
              · exact if_pos ⟨rfl, rfl⟩
              · intro q2 hq2
                rintro ⟨h1, h2⟩
                rcases hkey q2 hq2 with h | h
                · exact h h1
                · exact h h2
            · exact hpix q.y.toNat q.x.toNat (fun q2 hq2 =>
                distinct_key_distinct_cell hvr (hvrest q2 hq2) (hkey q2 hq2))
          · obtain ⟨h1, h2, h3⟩ := hrest q hq
            exact ⟨h1, h2, fun hs => h3 hs⟩
      · obtain ⟨s', hfill, hrest⟩ :=
          ih { pixels := fun i j =>
                 if i = r.y.toNat ∧ j = r.x.toNat then paletteRGB r.color.toNat
                 else s.pixels i j
               pixel_data := fun a b =>
                 if a = r.x ∧ b = r.y then some r.entry else s.pixel_data a b
               batch_changes := s.batch_changes
               cooldown := s.cooldown }
            hvrest hprest
        refine ⟨s', ?_, ?_⟩
        · simp only [fill_in_pixels, applyRow_of_paint cfg s r hvr h31]
          exact hfill
        · intro q hq
          rcases List.mem_cons.mp hq with hq | hq
          · subst hq
            obtain ⟨hled, hpix⟩ := fill_in_pixels_frame cfg rest _ s' hvrest hfill
            refine ⟨?_, fun _ => ?_, fun hs => absurd hs h31⟩
            · rw [hled q.x q.y ?_]
              · exact if_pos ⟨rfl, rfl⟩
              · intro q2 hq2
                rintro ⟨h1, h2⟩
                rcases hkey q2 hq2 with h | h
                · exact h h1
                · exact h h2
            · rw [hpix q.y.toNat q.x.toNat (fun q2 hq2 =>
                distinct_key_distinct_cell hvr (hvrest q2 hq2) (hkey q2 hq2))]
              exact if_pos ⟨rfl, rfl⟩
          · obtain ⟨h1, h2, h3⟩ := hrest q hq
            refine ⟨h1, h2, fun hs => ?_⟩
            rw [h3 hs]
            exact if_neg (distinct_key_distinct_cell (hvrest q hq) hvr
              ((hkey q hq).imp Ne.symm Ne.symm))

/-- Claim C8: hydration of a fresh instance loads every scanned row into the
pixel ledger and paints each row's color, mapped through the palette, into
the row's canvas-cache cell — except that a row whose stored color is the
blank sentinel 31 is recorded in the ledger but not painted, leaving its
cell at the default blank value `(255, 255, 255)`. Rows are assumed valid
(coordinates on the canvas and within the cache allocation, palette-range
colors — rows violating this abort hydration, which the spec treats as a
fatal startup failure) and pairwise distinct in their `(x, y)` primary
key. -/
theorem C8_hydration_populates (cfg : Config) (rows : List DBRow)
    (hv : ∀ r ∈ rows, validRow cfg r)
    (hk : rows.Pairwise (fun a b => a.x ≠ b.x ∨ a.y ≠ b.y)) :
    ∃ s', fill_in_pixels cfg initState rows = some s' ∧
      ∀ r ∈ rows,
        s'.pixel_data r.x r.y = some r.entry ∧
        (r.color ≠ 31 →
          s'.pixels r.y.toNat r.x.toNat = paletteRGB r.color.toNat) ∧
        (r.color = 31 → s'.pixels r.y.toNat r.x.toNat = (255, 255, 255)) := by
  obtain ⟨s', h1, h2⟩ := fill_in_pixels_spec cfg rows initState hv hk
  exact ⟨s', h1, fun r hr =>
    ⟨(h2 r hr).1, (h2 r hr).2.1, fun h => (h2 r hr).2.2 h⟩⟩

/-- Witness for C8: hydrating a 10×10 canvas from two rows — color 6 at
`(2, 3)` and sentinel color 31 at `(4, 4)` — records both in the ledger,
paints only the first, and leaves the sentinel cell blank. -/
theorem C8_witness :
    let rows : List DBRow :=
      [{ x := 2, y := 3, color := 6, painter := "A", painter_guild := "G",
         time := 0 },
       { x := 4, y := 4, color := 31, painter := "B", painter_guild := "H",
         time := 1 }]
    ∃ s', fill_in_pixels ⟨10, 10⟩ initState rows = some s' ∧
      ∀ r ∈ rows,
        s'.pixel_data r.x r.y = some r.entry ∧
        (r.color ≠ 31 →
          s'.pixels r.y.toNat r.x.toNat = paletteRGB r.color.toNat) ∧
        (r.color = 31 → s'.pixels r.y.toNat r.x.toNat = (255, 255, 255)) :=
  C8_hydration_populates ⟨10, 10⟩ _ (by decide) (by decide)
